import Mathlib

/-!
Verification of the Ledger & Budget Evaluation Engine of the finance
tracker. The Python source is shallowly embedded: Django `Decimal`
amounts become `ℚ`, calendar dates become `ℤ` (only their linear order
is used by the code under verification), rows of the `Transaction` and
`Budget` tables become Lean structures, and querysets become explicit
`List Transaction` arguments filtered in Lean.
-/

/-- `Transaction.TYPE_CHOICES`: a transaction is either income or expense
(`transactions/models.py`). -/
inductive TxType where
  | income
  | expense
deriving DecidableEq, Repr

/-- A row of the `Transaction` table (`transactions/models.py`).
Users and categories are identified by numeric ids; `category` is
nullable (`on_delete=SET_NULL`). `amount` is the stored positive
decimal; `is_refund` marks refund expenses; `currency` and the cached
`amount_in_preferred_currency` are carried so that we can state that the
budget computations never read them. -/
structure Transaction where
  user : ℕ
  category : Option ℕ
  type : TxType
  amount : ℚ
  is_refund : Bool
  currency : String
  amount_in_preferred_currency : Option ℚ
  date : ℤ
deriving DecidableEq, Repr

namespace Transaction

/-- `Transaction.effective_amount`: `-amount` when `is_refund` else
`amount`. Note the source has no check of `type`. -/
def effective_amount (t : Transaction) : ℚ :=
  if t.is_refund then -t.amount else t.amount

/-- `Transaction.signed_amount`: income is positive; expense is negative
unless it is a refund, which is positive (money coming back). -/
def signed_amount (t : Transaction) : ℚ :=
  match t.type with
  | .income => t.amount
  | .expense => if t.is_refund then t.amount else -t.amount

end Transaction

/-- A row of the `Budget` table (`budgets/models.py`): owner, expense
category, cap `amount`, currency tag and inclusive date range. -/
structure Budget where
  user : ℕ
  category : ℕ
  amount : ℚ
  currency : String
  start_date : ℤ
  end_date : ℤ
deriving DecidableEq, Repr

namespace Budget

/-- The queryset filter in `Budget.spent_amount`:
`Transaction.objects.filter(user=..., category=..., type='expense',
date__range=[start_date, end_date])`. -/
def matchesBudget (b : Budget) (t : Transaction) : Bool :=
  t.user == b.user && t.category == some b.category && t.type == .expense
    && decide (b.start_date ≤ t.date) && decide (t.date ≤ b.end_date)

/-- The accumulation loop body of `Budget.spent_amount`:
subtract refunds, add ordinary expenses. -/
def spentStep (acc : ℚ) (t : Transaction) : ℚ :=
  if t.is_refund then acc - t.amount else acc + t.amount

/-- `Budget.spent_amount`: loop over the matching expense transactions
adding `amount` (or subtracting for refunds), then clamp at
`Decimal('0.00')` via `max`. -/
def spent_amount (b : Budget) (txs : List Transaction) : ℚ :=
  max ((txs.filter b.matchesBudget).foldl spentStep 0) 0

/-- `Budget.remaining_amount = amount - spent_amount`. -/
def remaining_amount (b : Budget) (txs : List Transaction) : ℚ :=
  b.amount - b.spent_amount txs

/-- `Budget.usage_percentage`: `0` when the cap is zero, else
`(spent_amount / amount) * 100`. -/
def usage_percentage (b : Budget) (txs : List Transaction) : ℚ :=
  if b.amount = 0 then 0 else b.spent_amount txs / b.amount * 100

/-- `Budget.is_exceeded`: strict comparison `spent_amount > amount`. -/
def is_exceeded (b : Budget) (txs : List Transaction) : Bool :=
  decide (b.spent_amount txs > b.amount)

/-- `Budget.status`: `'exceeded'` at ≥ 100 %, `'warning'` at ≥ 80 %,
otherwise `'good'`. -/
def status (b : Budget) (txs : List Transaction) : String :=
  let pct := b.usage_percentage txs
  if pct ≥ 100 then "exceeded"
  else if pct ≥ 80 then "warning"
  else "good"

end Budget

namespace Dashboard

/-- `dashboard` view, all-time income total:
`filter(user=user, type='income').aggregate(Sum('amount'))`, with
`None` (empty queryset) falling back to `Decimal('0.00')`
(`dashboard/views.py`). -/
def total_income (u : ℕ) (txs : List Transaction) : ℚ :=
  ((txs.filter fun t => t.user == u && t.type == .income).map
    Transaction.amount).sum

/-- `dashboard` view, all-time non-refund expense total:
`filter(user=user, type='expense', is_refund=False).aggregate(Sum('amount'))`. -/
def total_expense (u : ℕ) (txs : List Transaction) : ℚ :=
  ((txs.filter fun t => t.user == u && t.type == .expense && !t.is_refund).map
    Transaction.amount).sum

/-- `dashboard` view, all-time refund total:
`filter(user=user, type='expense', is_refund=True).aggregate(Sum('amount'))`. -/
def total_refunds (u : ℕ) (txs : List Transaction) : ℚ :=
  ((txs.filter fun t => t.user == u && t.type == .expense && t.is_refund).map
    Transaction.amount).sum

/-- `net_worth = total_income - total_expense + total_refunds`
(`dashboard/views.py` line 67). -/
def net_worth (u : ℕ) (txs : List Transaction) : ℚ :=
  total_income u txs - total_expense u txs + total_refunds u txs

/-- One iteration of the `while month <= 0` loop of `_months_ago`
(`dashboard/views.py`): add 12 to the month and take one off the year
until the month is positive. -/
def normalizeMonth (month year : ℤ) : ℤ × ℤ :=
  if month ≤ 0 then normalizeMonth (month + 12) (year - 1) else (month, year)
termination_by (1 - month).toNat
decreasing_by omega

/-- `_months_ago(today, n)`: start from `today.month - n` and roll the
year back while the month is non-positive. -/
def months_ago (todayMonth todayYear n : ℤ) : ℤ × ℤ :=
  normalizeMonth (todayMonth - n) todayYear

end Dashboard

/-- The body the external rate API returns, as the code reads it:
`data.get('result')` (absent key modelled as `none`) and
`data['conversion_result']` (`transactions/views.py`). -/
structure RateResponse where
  result : Option String
  conversion_result : ℚ
deriving DecidableEq, Repr

/-- Round half to even at integer precision, the rounding mode of
Python's built-in `round`. -/
def roundHalfEven (q : ℚ) : ℤ :=
  if q - ⌊q⌋ < 1 / 2 then ⌊q⌋
  else if 1 / 2 < q - ⌊q⌋ then ⌊q⌋ + 1
  else if 2 ∣ ⌊q⌋ then ⌊q⌋ else ⌊q⌋ + 1

/-- Python `round(x, 2)`. -/
def pyRound2 (q : ℚ) : ℚ :=
  (roundHalfEven (q * 100) : ℚ) / 100

/-- `convert_currency(amount, from_currency, to_currency)`
(`transactions/views.py`). The one external effect — the rate-API
request plus JSON decode — is passed in as `lookup`: `none` models any
exception inside the `try` block (network error, timeout, malformed
JSON, missing key), `some d` a decoded body. The conversion is returned
rounded only when `data.get('result') == 'success'`; every other path
falls through to `return amount`. -/
def convert_currency (amount : ℚ) (from_currency to_currency : String)
    (lookup : Option RateResponse) : ℚ :=
  if from_currency == to_currency then amount
  else
    match lookup with
    | none => amount
    | some d =>
      if d.result == some "success" then pyRound2 d.conversion_result
      else amount

/-- A row of `UserProfile` (`accounts/models.py`), the fields the core
reads. -/
structure UserProfile where
  preferred_currency : String
  budget_alert_email : Bool
  budget_alert_threshold : ℤ
deriving DecidableEq, Repr

/-- `_get_currency(user)` (`dashboard/views.py`): `try: return
user.profile.preferred_currency except Exception: return 'USD'`. A
missing profile row is `none`. -/
def dashboard_get_currency (profile : Option UserProfile) : String :=
  match profile with
  | some p => p.preferred_currency
  | none => "USD"

/-- The preferred-currency access in `transaction_create` and
`transaction_edit` (`transactions/views.py` lines 160 and 190):
`request.user.profile.preferred_currency` with no guard, so a missing
profile raises `RelatedObjectDoesNotExist`. -/
def create_preferred_currency (profile : Option UserProfile) :
    Except String String :=
  match profile with
  | some p => .ok p.preferred_currency
  | none => .error "RelatedObjectDoesNotExist"

/-- The threshold access in `_check_budget_alert`
(`transactions/views.py` line 253):
`request.user.profile.budget_alert_threshold` with no guard, so a
missing profile raises before any alert decision is taken. -/
def alert_threshold_access (profile : Option UserProfile) :
    Except String ℤ :=
  match profile with
  | some p => .ok p.budget_alert_threshold
  | none => .error "RelatedObjectDoesNotExist"

/-- Two transaction rows that agree on every field the budget engine may
legitimately read, and differ at most in `currency` and the cached
`amount_in_preferred_currency`. -/
def sameExceptCurrency (t1 t2 : Transaction) : Prop :=
  t1.user = t2.user ∧ t1.category = t2.category ∧ t1.type = t2.type ∧
    t1.amount = t2.amount ∧ t1.is_refund = t2.is_refund ∧ t1.date = t2.date

instance : ∀ t1 t2 : Transaction, Decidable (sameExceptCurrency t1 t2) :=
  fun _ _ => by unfold sameExceptCurrency; infer_instance

/-- Two budget rows that differ at most in their `currency` tag. -/
def sameBudgetExceptCurrency (b1 b2 : Budget) : Prop :=
  b1.user = b2.user ∧ b1.category = b2.category ∧ b1.amount = b2.amount ∧
    b1.start_date = b2.start_date ∧ b1.end_date = b2.end_date

instance : ∀ b1 b2 : Budget, Decidable (sameBudgetExceptCurrency b1 b2) :=
  fun _ _ => by unfold sameBudgetExceptCurrency; infer_instance

/-!
## Theorems
-/

/-- The accumulation loop of `Budget.spent_amount` computes the sum of
`effective_amount` over the rows it visits. -/
lemma foldl_spentStep_eq (a : ℚ) (l : List Transaction) :
    l.foldl Budget.spentStep a = a + (l.map Transaction.effective_amount).sum := by
  induction l generalizing a with
  | nil => simp
  | cons t ts ih =>
    by_cases h : t.is_refund <;>
      simp [Budget.spentStep, Transaction.effective_amount, h, ih] <;> ring

/-- C1: a budget's `spent_amount` is the clamp-to-zero of the sum of
`effective_amount` over the owner's expense transactions matching the
budget's category whose date lies in `[start_date, end_date]`; in
particular it is never negative, even when refunds exceed spend. -/
theorem spent_amount_clamped_effective_sum (b : Budget) (txs : List Transaction) :
    b.spent_amount txs =
      max (((txs.filter b.matchesBudget).map Transaction.effective_amount).sum) 0 ∧
    0 ≤ b.spent_amount txs := by
  refine ⟨?_, ?_⟩
  · rw [Budget.spent_amount, foldl_spentStep_eq, zero_add]
  · exact le_max_right _ 0

/-- C2: the dashboard's net-worth formula
`total_income − total_expense + total_refunds` agrees with the sum of
`signed_amount` over all of the owner's transactions. -/
theorem net_worth_eq_sum_signed (u : ℕ) (txs : List Transaction) :
    Dashboard.net_worth u txs =
      ((txs.filter fun t => t.user == u).map Transaction.signed_amount).sum := by
  induction txs with
  | nil =>
    simp [Dashboard.net_worth, Dashboard.total_income, Dashboard.total_expense,
      Dashboard.total_refunds]
  | cons t ts ih =>
    rcases ht : t.type <;> by_cases hu : t.user = u <;> by_cases hr : t.is_refund <;>
      simp only [Dashboard.net_worth, Dashboard.total_income, Dashboard.total_expense,
        Dashboard.total_refunds, List.filter_cons, Transaction.signed_amount, ht, hu, hr,
        beq_iff_eq, beq_self_eq_true, Bool.not_true, Bool.not_false, decide_True,
        decide_False, Bool.true_and, Bool.false_and, Bool.and_true, Bool.and_false,
        if_true, if_false, List.map_cons, List.sum_cons] <;>
      simp only [Dashboard.net_worth, Dashboard.total_income, Dashboard.total_expense,
        Dashboard.total_refunds, Transaction.signed_amount] at ih <;>
      simp_all <;> linarith

/-- C3 counterexample: for an income transaction with `is_refund = true`
(amount 5), `effective_amount` is `-5`, not the `+amount` the claim
asserts — `effective_amount` checks only `is_refund`, never `type`. -/
theorem income_refund_effective_amount_flips :
    Transaction.effective_amount
        (Transaction.mk 0 none TxType.income 5 true "USD" none 0) = -5 ∧
      Transaction.effective_amount
        (Transaction.mk 0 none TxType.income 5 false "USD" none 0) = 5 ∧
      (-5 : ℚ) ≠ 5 := by
  refine ⟨rfl, rfl, by norm_num⟩

/-- C3 amended: for income transactions only `signed_amount` ignores
`is_refund` (it is `+amount` either way); `effective_amount` still
negates the amount whenever `is_refund` is set, regardless of the
transaction's direction. -/
theorem income_signed_amount_ignores_refund (t : Transaction)
    (h : t.type = TxType.income) :
    Transaction.signed_amount t = t.amount ∧
      Transaction.effective_amount t =
        (if t.is_refund then -t.amount else t.amount) := by
  exact ⟨by rw [Transaction.signed_amount, h], rfl⟩

/-- C3 amended, witness at a concrete income refund. -/
theorem income_signed_amount_ignores_refund_witness :
    Transaction.signed_amount
        (Transaction.mk 0 none TxType.income 5 true "USD" none 0) = 5 ∧
      Transaction.effective_amount
        (Transaction.mk 0 none TxType.income 5 true "USD" none 0) = -5 := by
  have h := income_signed_amount_ignores_refund
    (Transaction.mk 0 none TxType.income 5 true "USD" none 0) rfl
  exact ⟨h.1, h.2⟩

/-- C4: with a zero cap, `usage_percentage` is defined to be `0`, for
any spent amount — no division is attempted. -/
theorem usage_percentage_zero_cap (b : Budget) (txs : List Transaction)
    (h : b.amount = 0) : b.usage_percentage txs = 0 := by
  rw [Budget.usage_percentage, if_pos h]

/-- C4 witness: a zero-cap budget with 50 already spent in the period
still reports usage 0. -/
theorem usage_percentage_zero_cap_witness :
    Budget.spent_amount (Budget.mk 0 1 0 "USD" 0 30)
        [Transaction.mk 0 (some 1) TxType.expense 50 false "USD" none 5] = 50 ∧
      Budget.usage_percentage (Budget.mk 0 1 0 "USD" 0 30)
        [Transaction.mk 0 (some 1) TxType.expense 50 false "USD" none 5] = 0 := by
  refine ⟨?_, usage_percentage_zero_cap _ _ rfl⟩
  norm_num [Budget.spent_amount, Budget.matchesBudget, Budget.spentStep]

/-- C5: `status` is `"exceeded"` iff usage ≥ 100, `"warning"` iff
80 ≤ usage < 100, `"good"` iff usage < 80; checked in particular at the
boundary usages 79.9, 80.0, 99.9 and 100.0 (cap 1000, single matching
expense of 799, 800, 999 and 1000 respectively). -/
theorem status_thresholds (b : Budget) (txs : List Transaction) :
    ((100 ≤ b.usage_percentage txs → b.status txs = "exceeded") ∧
      (80 ≤ b.usage_percentage txs → b.usage_percentage txs < 100 →
        b.status txs = "warning") ∧
      (b.usage_percentage txs < 80 → b.status txs = "good")) ∧
    (Budget.usage_percentage (Budget.mk 0 1 1000 "USD" 0 30)
        [Transaction.mk 0 (some 1) TxType.expense 799 false "USD" none 5] = 799 / 10 ∧
      Budget.status (Budget.mk 0 1 1000 "USD" 0 30)
        [Transaction.mk 0 (some 1) TxType.expense 799 false "USD" none 5] = "good") ∧
    (Budget.usage_percentage (Budget.mk 0 1 1000 "USD" 0 30)
        [Transaction.mk 0 (some 1) TxType.expense 800 false "USD" none 5] = 80 ∧
      Budget.status (Budget.mk 0 1 1000 "USD" 0 30)
        [Transaction.mk 0 (some 1) TxType.expense 800 false "USD" none 5] = "warning") ∧
    (Budget.usage_percentage (Budget.mk 0 1 1000 "USD" 0 30)
        [Transaction.mk 0 (some 1) TxType.expense 999 false "USD" none 5] = 999 / 10 ∧
      Budget.status (Budget.mk 0 1 1000 "USD" 0 30)
        [Transaction.mk 0 (some 1) TxType.expense 999 false "USD" none 5] = "warning") ∧
    (Budget.usage_percentage (Budget.mk 0 1 1000 "USD" 0 30)
        [Transaction.mk 0 (some 1) TxType.expense 1000 false "USD" none 5] = 100 ∧
      Budget.status (Budget.mk 0 1 1000 "USD" 0 30)
        [Transaction.mk 0 (some 1) TxType.expense 1000 false "USD" none 5] = "exceeded") := by
  refine ⟨⟨?_, ?_, ?_⟩, ?_, ?_, ?_, ?_⟩
  · intro h
    rw [Budget.status, if_pos h]
  · intro h1 h2
    rw [Budget.status, if_neg (by exact not_le.mpr h2), if_pos h1]
  · intro h
    rw [Budget.status, if_neg (by exact not_le.mpr (lt_of_lt_of_le h (by norm_num))),
      if_neg (not_le.mpr h)]
  all_goals
    norm_num [Budget.status, Budget.usage_percentage, Budget.spent_amount,
      Budget.matchesBudget, Budget.spentStep]

/-- C5 witness: the general threshold clauses applied at a concrete
budget with usage 79.9. -/
theorem status_thresholds_witness :
    Budget.status (Budget.mk 0 1 1000 "USD" 0 30)
      [Transaction.mk 0 (some 1) TxType.expense 799 false "USD" none 5] = "good" :=
  (status_thresholds (Budget.mk 0 1 1000 "USD" 0 30)
      [Transaction.mk 0 (some 1) TxType.expense 799 false "USD" none 5]).1.2.2
    (by norm_num [Budget.usage_percentage, Budget.spent_amount,
      Budget.matchesBudget, Budget.spentStep])

/-- C6: `convert_currency` is the identity when the two currency codes
are equal — for every possible outcome of the external lookup, so the
result cannot depend on it — and on every failing lookup (exception
path `none`, or a decoded body whose `result` field is not
`'success'`) it falls open to the original amount. -/
theorem convert_currency_identity_and_fail_open
    (amount : ℚ) (fc tc : String) (lookup : Option RateResponse) :
    (fc = tc → convert_currency amount fc tc lookup = amount) ∧
    convert_currency amount fc tc none = amount ∧
    (∀ d : RateResponse, lookup = some d → d.result ≠ some "success" →
      convert_currency amount fc tc lookup = amount) := by
  refine ⟨fun h => ?_, ?_, fun d hd hres => ?_⟩
  · subst h
    simp [convert_currency]
  · by_cases h : fc = tc <;> simp [convert_currency, h]
  · subst hd
    have hfalse : (d.result == some "success") = false := by
      simpa using hres
    by_cases h : fc = tc <;> simp [convert_currency, h, hfalse]

/-- C6 witness: identity fast path at equal codes even under a
successful-looking lookup, and fail-open passthrough on an error
body. -/
theorem convert_currency_witness :
    convert_currency 7 "USD" "USD" (some (RateResponse.mk (some "success") 999)) = 7 ∧
      convert_currency 7 "USD" "EUR" (some (RateResponse.mk (some "error") 999)) = 7 := by
  refine ⟨(convert_currency_identity_and_fail_open 7 "USD" "USD"
      (some (RateResponse.mk (some "success") 999))).1 rfl,
    (convert_currency_identity_and_fail_open 7 "USD" "EUR"
      (some (RateResponse.mk (some "error") 999))).2.2
      (RateResponse.mk (some "error") 999) rfl (by decide)⟩

/-- C7 counterexample: with no `UserProfile` row, the preferred-currency
access of `transaction_create`/`transaction_edit` raises
(`RelatedObjectDoesNotExist`) instead of returning the `"USD"` fallback
the claim asserts, and the threshold access of `_check_budget_alert`
raises before any alert decision is taken. -/
theorem missing_profile_raises_in_create :
    create_preferred_currency none = Except.error "RelatedObjectDoesNotExist" ∧
      create_preferred_currency none ≠ Except.ok "USD" ∧
      alert_threshold_access none = Except.error "RelatedObjectDoesNotExist" := by
  refine ⟨rfl, ?_, rfl⟩
  intro h
  simp [create_preferred_currency] at h

/-- C7 amended: only the dashboard's currency lookup tolerates a
missing profile (falling back to `"USD"`, reading
`preferred_currency` when present); the currency normalization of
`transaction_create`/`transaction_edit` and the budget-alert threshold
read are unguarded and error out on a missing profile. -/
theorem missing_profile_only_dashboard_falls_back (p : UserProfile) :
    dashboard_get_currency none = "USD" ∧
      dashboard_get_currency (some p) = p.preferred_currency ∧
      create_preferred_currency none = Except.error "RelatedObjectDoesNotExist" ∧
      alert_threshold_access none = Except.error "RelatedObjectDoesNotExist" :=
  ⟨rfl, rfl, rfl, rfl⟩

/-- The `while` loop of `_months_ago` returns a month in `1..12` and
preserves the absolute month index `year * 12 + month`, provided the
starting month does not already exceed 12. -/
lemma normalizeMonth_spec (month year : ℤ) (h : month ≤ 12) :
    1 ≤ (Dashboard.normalizeMonth month year).1 ∧
      (Dashboard.normalizeMonth month year).1 ≤ 12 ∧
      (Dashboard.normalizeMonth month year).2 * 12 +
        (Dashboard.normalizeMonth month year).1 = year * 12 + month := by
  induction month, year using Dashboard.normalizeMonth.induct with
  | case1 month year hle ih =>
    rw [Dashboard.normalizeMonth, if_pos hle]
    have := ih (by omega)
    omega
  | case2 month year hgt =>
    rw [Dashboard.normalizeMonth, if_neg hgt]
    omega

/-- `normalizeMonth` lands on the unique `(month, year)` pair with the
month in `1..12` and the same absolute month index. -/
lemma normalizeMonth_eq (month year m' y' : ℤ) (h : month ≤ 12)
    (h1 : 1 ≤ m') (h2 : m' ≤ 12) (he : y' * 12 + m' = year * 12 + month) :
    Dashboard.normalizeMonth month year = (m', y') := by
  have hs := normalizeMonth_spec month year h
  have e1 : (Dashboard.normalizeMonth month year).1 = m' := by omega
  have e2 : (Dashboard.normalizeMonth month year).2 = y' := by omega
  calc Dashboard.normalizeMonth month year
      = ((Dashboard.normalizeMonth month year).1,
          (Dashboard.normalizeMonth month year).2) := rfl
    _ = (m', y') := by rw [e1, e2]

/-- C8: `_months_ago` rolls year boundaries correctly: for any starting
month in `1..12` and any non-negative `n` it yields a month in `1..12`
with absolute month index shifted by exactly `n`; in particular 1 month
back from January of any year `y` is December of `y − 1`, 1 month back
from January 2026 is December 2025, and 6 months back from March 2026
is September 2025. -/
theorem months_ago_rollover (m y n : ℤ) (h1 : 1 ≤ m) (h2 : m ≤ 12)
    (h3 : 0 ≤ n) :
    (1 ≤ (Dashboard.months_ago m y n).1 ∧
      (Dashboard.months_ago m y n).1 ≤ 12 ∧
      (Dashboard.months_ago m y n).2 * 12 + (Dashboard.months_ago m y n).1
        = y * 12 + m - n) ∧
    Dashboard.months_ago 1 y 1 = (12, y - 1) ∧
    Dashboard.months_ago 1 2026 1 = (12, 2025) ∧
    Dashboard.months_ago 3 2026 6 = (9, 2025) := by
  refine ⟨?_, ?_, ?_, ?_⟩
  · rw [Dashboard.months_ago]
    have hs := normalizeMonth_spec (m - n) y (by omega)
    omega
  · rw [Dashboard.months_ago]
    exact normalizeMonth_eq (1 - 1) y 12 (y - 1) (by omega) (by omega)
      (by omega) (by ring)
  · rw [Dashboard.months_ago]
    exact normalizeMonth_eq (1 - 1) 2026 12 2025 (by omega) (by omega)
      (by omega) (by omega)
  · rw [Dashboard.months_ago]
    exact normalizeMonth_eq (3 - 6) 2026 9 2025 (by omega) (by omega)
      (by omega) (by omega)

/-- C8 witness: the general rollover invariant applied at 6 months
before March 2026. -/
theorem months_ago_rollover_witness :
    1 ≤ (Dashboard.months_ago 3 2026 6).1 ∧
      (Dashboard.months_ago 3 2026 6).1 ≤ 12 ∧
      (Dashboard.months_ago 3 2026 6).2 * 12 + (Dashboard.months_ago 3 2026 6).1
        = 2026 * 12 + 3 - 6 :=
  (months_ago_rollover 3 2026 6 (by norm_num) (by norm_num) (by norm_num)).1

/-- The `spent_amount` queryset filter gives the same verdict on rows
that differ only in currency fields, for budgets that differ only in
their currency tag. -/
lemma matchesBudget_congr (b1 b2 : Budget) (hb : sameBudgetExceptCurrency b1 b2)
    (t1 t2 : Transaction) (ht : sameExceptCurrency t1 t2) :
    b1.matchesBudget t1 = b2.matchesBudget t2 := by
  obtain ⟨hu, hc, _, hs, he⟩ := hb
  obtain ⟨tu, tc, tt, _, _, td⟩ := ht
  simp only [Budget.matchesBudget, hu, hc, hs, he, tu, tc, tt, td]

/-- The `spent_amount` accumulation loop is insensitive to the currency
fields of the rows and of the budget. -/
lemma spent_loop_congr (b1 b2 : Budget) (hb : sameBudgetExceptCurrency b1 b2)
    (txs1 txs2 : List Transaction)
    (ht : List.Forall₂ sameExceptCurrency txs1 txs2) :
    ∀ a : ℚ, (txs1.filter b1.matchesBudget).foldl Budget.spentStep a
      = (txs2.filter b2.matchesBudget).foldl Budget.spentStep a := by
  induction ht with
  | nil => intro a; rfl
  | @cons t1 t2 l1 l2 h _ ih =>
    intro a
    rw [List.filter_cons, List.filter_cons, matchesBudget_congr b1 b2 hb t1 t2 h]
    have hstep : Budget.spentStep a t1 = Budget.spentStep a t2 := by
      obtain ⟨_, _, _, ta, tr, _⟩ := h
      simp only [Budget.spentStep, ta, tr]
    by_cases hm : b2.matchesBudget t2
    · rw [if_pos hm, if_pos hm, List.foldl_cons, List.foldl_cons, hstep]
      exact ih _
    · rw [if_neg hm, if_neg hm]
      exact ih a

/-- C9: the budget computations read neither the transactions' currency
or cached converted-amount fields nor the budget's own currency tag:
two transaction sets differing only in those fields (and two budget
rows differing only in `currency`) yield identical `spent_amount`,
`usage_percentage`, `status` and `is_exceeded`. -/
theorem budget_eval_ignores_currency (b1 b2 : Budget)
    (txs1 txs2 : List Transaction) (hb : sameBudgetExceptCurrency b1 b2)
    (ht : List.Forall₂ sameExceptCurrency txs1 txs2) :
    b1.spent_amount txs1 = b2.spent_amount txs2 ∧
      b1.usage_percentage txs1 = b2.usage_percentage txs2 ∧
      b1.status txs1 = b2.status txs2 ∧
      b1.is_exceeded txs1 = b2.is_exceeded txs2 := by
  have hs : b1.spent_amount txs1 = b2.spent_amount txs2 := by
    rw [Budget.spent_amount, Budget.spent_amount,
      spent_loop_congr b1 b2 hb txs1 txs2 ht 0]
  have hu : b1.usage_percentage txs1 = b2.usage_percentage txs2 := by
    rw [Budget.usage_percentage, Budget.usage_percentage, hs, hb.2.2.1]
  refine ⟨hs, hu, ?_, ?_⟩
  · rw [Budget.status, Budget.status, hu]
  · rw [Budget.is_exceeded, Budget.is_exceeded, hs, hb.2.2.1]

/-- C9 witness: a USD-tagged and an EUR-tagged copy of the same budget,
evaluated over the same single expense recorded once in USD with no
cached conversion and once in INR with a cached conversion, agree on
all four derived values. -/
theorem budget_eval_ignores_currency_witness :
    Budget.spent_amount (Budget.mk 0 1 100 "USD" 0 30)
        [Transaction.mk 0 (some 1) TxType.expense 40 false "USD" none 5]
      = Budget.spent_amount (Budget.mk 0 1 100 "EUR" 0 30)
        [Transaction.mk 0 (some 1) TxType.expense 40 false "INR" (some 42) 5] ∧
    Budget.usage_percentage (Budget.mk 0 1 100 "USD" 0 30)
        [Transaction.mk 0 (some 1) TxType.expense 40 false "USD" none 5]
      = Budget.usage_percentage (Budget.mk 0 1 100 "EUR" 0 30)
        [Transaction.mk 0 (some 1) TxType.expense 40 false "INR" (some 42) 5] ∧
    Budget.status (Budget.mk 0 1 100 "USD" 0 30)
        [Transaction.mk 0 (some 1) TxType.expense 40 false "USD" none 5]
      = Budget.status (Budget.mk 0 1 100 "EUR" 0 30)
        [Transaction.mk 0 (some 1) TxType.expense 40 false "INR" (some 42) 5] ∧
    Budget.is_exceeded (Budget.mk 0 1 100 "USD" 0 30)
        [Transaction.mk 0 (some 1) TxType.expense 40 false "USD" none 5]
      = Budget.is_exceeded (Budget.mk 0 1 100 "EUR" 0 30)
        [Transaction.mk 0 (some 1) TxType.expense 40 false "INR" (some 42) 5] :=
  budget_eval_ignores_currency
    (Budget.mk 0 1 100 "USD" 0 30) (Budget.mk 0 1 100 "EUR" 0 30)
    [Transaction.mk 0 (some 1) TxType.expense 40 false "USD" none 5]
    [Transaction.mk 0 (some 1) TxType.expense 40 false "INR" (some 42) 5]
    (by decide) (List.Forall₂.cons (by decide) List.Forall₂.nil)

/-- C10: when a positive cap is met exactly (`spent_amount = amount`),
`usage_percentage` is 100, so `status` reports `"exceeded"` (≥ 100)
while `is_exceeded` is `false` (strict `>`): the two indicators
disagree at the equality boundary. -/
theorem exact_cap_exceeded_disagreement (b : Budget) (txs : List Transaction)
    (hpos : 0 < b.amount) (heq : b.spent_amount txs = b.amount) :
    b.usage_percentage txs = 100 ∧ b.status txs = "exceeded" ∧
      b.is_exceeded txs = false := by
  have hu : b.usage_percentage txs = 100 := by
    rw [Budget.usage_percentage, if_neg (by exact ne_of_gt hpos), heq,
      div_self (ne_of_gt hpos), one_mul]
  refine ⟨hu, ?_, ?_⟩
  · simp only [Budget.status, hu]
    norm_num
  · rw [Budget.is_exceeded, heq]
    simp

/-- C10 witness: cap 100 and a single matching 100 expense — usage 100,
status "exceeded", is_exceeded false. -/
theorem exact_cap_exceeded_disagreement_witness :
    Budget.usage_percentage (Budget.mk 0 1 100 "USD" 0 30)
        [Transaction.mk 0 (some 1) TxType.expense 100 false "USD" none 5] = 100 ∧
      Budget.status (Budget.mk 0 1 100 "USD" 0 30)
        [Transaction.mk 0 (some 1) TxType.expense 100 false "USD" none 5] = "exceeded" ∧
      Budget.is_exceeded (Budget.mk 0 1 100 "USD" 0 30)
        [Transaction.mk 0 (some 1) TxType.expense 100 false "USD" none 5] = false :=
  exact_cap_exceeded_disagreement (Budget.mk 0 1 100 "USD" 0 30)
    [Transaction.mk 0 (some 1) TxType.expense 100 false "USD" none 5]
    (by norm_num)
    (by norm_num [Budget.spent_amount, Budget.matchesBudget, Budget.spentStep])
